import Mathlib

/-!
Verification of the R-facing materializer of arrow-nanoarrow
(`src/r/src/materialize.c`).

The development shallowly embeds the C file: R vectors (`SEXP`) become the
inductive `RVec`, R attributes become `Attrs`, the converter tree
(`struct RConverter`) becomes `RConverter`, and each C function becomes a
Lean function of the same name.  Code that the repository does not ship in
`src/` (the scalar materializers of `materialize_*.h`, the converter
protocol of `convert.h`, the R-side fallback `convert_fallback_other`, and
the nanoarrow union/validity accessors) is kept abstract behind the
`Oracle` structure, so every theorem quantifies over all behaviours of the
missing code.  R's `Rf_error` (a non-returning host error) is modelled as
an `Except.error`; C `int` status codes are modelled as `Int`.
-/

namespace Nanoarrow

/-- Status code `NANOARROW_OK` (0). -/
def NANOARROW_OK : Int := 0

/-- Status code `EINVAL` (22 on Linux). -/
def EINVAL : Int := 22

/-- Status code `ENOTSUP` (95 on Linux). -/
def ENOTSUP : Int := 95

/-- A raised host-runtime (R) error: `Rf_error` longjmps and never returns.
`outOfFuel` is the sentinel of the fuel-indexed recursion used for the
converter tree; it is never produced when the fuel exceeds the tree depth. -/
inductive RError where
  | rError (msg : String)
  | outOfFuel
deriving Repr, DecidableEq

/-- The `SEXPTYPE` of an R value, restricted to the types `materialize.c`
touches. -/
inductive SexpKind where
  | nilsxp
  | rawsxp
  | lglsxp
  | intsxp
  | realsxp
  | cplxsxp
  | strsxp
  | vecsxp
deriving Repr, DecidableEq

/-- The R attributes of a value that `materialize.c` reads or writes.
`classes` models the `class` attribute (the OBJECT bit is set iff it is
nonempty), `names` the `names` attribute, `levels` the factor `levels`,
`rowNames` a `row.names` attribute standing for that many rows, and
`most` the remaining attributes moved by `Rf_copyMostAttrib`. -/
structure Attrs where
  classes : List String := []
  names : Option (List String) := none
  levels : Option (List String) := none
  rowNames : Option Nat := none
  most : List (String × Int) := []
deriving Repr, DecidableEq

/-- An R value (`SEXP`) as used by `materialize.c`.  Scalar payloads carry
`none` for the type's NA sentinel (`NA_INTEGER`, `NA_REAL`, `NA_STRING`,
the NA complex); double payloads are opaque `Int` stand-ins, since the
code only moves them.  `vec` is a `VECSXP` (generic list / data.frame
column set); `nil` is `R_NilValue`. -/
inductive RVec where
  | nil
  | raw (attrs : Attrs) (xs : List Nat)
  | lgl (attrs : Attrs) (xs : List (Option Int))
  | int (attrs : Attrs) (xs : List (Option Int))
  | real (attrs : Attrs) (xs : List (Option Int))
  | cplx (attrs : Attrs) (xs : List (Option (Int × Int)))
  | chr (attrs : Attrs) (xs : List (Option String))
  | vec (attrs : Attrs) (xs : List RVec)
deriving Repr

namespace RVec

/-- `TYPEOF(x)`. -/
def sexpKind : RVec → SexpKind
  | .nil => .nilsxp
  | .raw _ _ => .rawsxp
  | .lgl _ _ => .lglsxp
  | .int _ _ => .intsxp
  | .real _ _ => .realsxp
  | .cplx _ _ => .cplxsxp
  | .chr _ _ => .strsxp
  | .vec _ _ => .vecsxp

/-- The attributes of a value (`R_NilValue` has none). -/
def attrs : RVec → Attrs
  | .nil => {}
  | .raw a _ => a
  | .lgl a _ => a
  | .int a _ => a
  | .real a _ => a
  | .cplx a _ => a
  | .chr a _ => a
  | .vec a _ => a

/-- Replace the attributes of a value. -/
def withAttrs : RVec → Attrs → RVec
  | .nil, _ => .nil
  | .raw _ xs, a => .raw a xs
  | .lgl _ xs, a => .lgl a xs
  | .int _ xs, a => .int a xs
  | .real _ xs, a => .real a xs
  | .cplx _ xs, a => .cplx a xs
  | .chr _ xs, a => .chr a xs
  | .vec _ xs, a => .vec a xs

/-- `Rf_xlength(x)`: element count of a vector, child count of a `VECSXP`. -/
def rlen : RVec → Nat
  | .nil => 0
  | .raw _ xs => xs.length
  | .lgl _ xs => xs.length
  | .int _ xs => xs.length
  | .real _ xs => xs.length
  | .cplx _ xs => xs.length
  | .chr _ xs => xs.length
  | .vec _ xs => xs.length

/-- The columns of a `VECSXP`; other values have none. -/
def cols : RVec → List RVec
  | .vec _ xs => xs
  | _ => []

/-- Replace the columns of a `VECSXP`; other values are unchanged. -/
def withCols : RVec → List RVec → RVec
  | .vec a _, xs => .vec a xs
  | v, _ => v

/-- `SET_VECTOR_ELT(x, i, v)` with the no-write-out-of-bounds convention
of the model (the C code never indexes out of bounds in a consistent
converter tree). -/
def setElt (x : RVec) (i : Int) (v : RVec) : RVec :=
  match x with
  | .vec a xs => if i < 0 then .vec a xs else .vec a (xs.set i.toNat v)
  | other => other

/-- `Rf_isObject(x)`: the OBJECT bit, set iff a class attribute is present. -/
def isObject (x : RVec) : Bool := x.attrs.classes ≠ []

/-- `Rf_inherits(x, cls)`. -/
def inherits (x : RVec) (cls : String) : Bool := cls ∈ x.attrs.classes

end RVec

/-- Write `v` to positions `[offset, offset + len)` of a list, leaving other
positions alone; positions outside the list are dropped silently (the C
code never writes out of bounds in a consistent tree). -/
def fillRange {α : Type} (v : α) : List α → Int → Int → List α
  | [], _, _ => []
  | x :: xs, offset, len =>
    (if offset ≤ 0 ∧ 0 < offset + len then v else x) :: fillRange v xs (offset - 1) len

/-- Overlay the first `len` elements of `src` onto a list starting at
`offset`, leaving other positions alone. Models `memcpy(dst + offset, src,
len)` and the element-wise `SET_*_ELT` copy loops. -/
def overlayRange {α : Type} (src : List α) : List α → Int → Int → List α
  | [], _, _ => []
  | x :: xs, offset, len =>
    (if offset ≤ 0 ∧ 0 < offset + len then src.getD (-offset).toNat x else x) ::
      overlayRange src xs (offset - 1) len

/-- The list `[0, 1, ..., n-1]` as `Int`s (empty when `n ≤ 0`): the index
sequence of a C `for (int64_t i = 0; i < n; i++)` loop. -/
def intRange (n : Int) : List Int := (List.range n.toNat).map (fun k => (k : Int))

/-- `nanoarrow_ptype_is_data_frame` (materialize.c:105-109): an object of
`VECSXP` type that either inherits `"data.frame"` or is nonempty with a
`names` attribute. -/
def nanoarrow_ptype_is_data_frame (x : RVec) : Bool :=
  x.isObject && x.sexpKind == .vecsxp &&
    (x.inherits "data.frame" || (x.rlen > 0 && x.attrs.names.isSome))

/-- `nanoarrow_data_frame_size` (materialize.c:65-78): the length of the
first column when there is one, else the length the `row.names`
attribute stands for. -/
def nanoarrow_data_frame_size (x : RVec) : Nat :=
  match x with
  | .vec _ (c :: _) => c.rlen
  | other => other.attrs.rowNames.getD 0

/-- `nanoarrow_set_rownames` (materialize.c:80-103): both branches install
a `row.names` attribute standing for `len` rows. -/
def nanoarrow_set_rownames (x : RVec) (len : Nat) : RVec :=
  x.withAttrs { x.attrs with rowNames := some len }

/-- `Rf_allocVector(t, n)`: a fresh attribute-free vector of length `n`
(uninitialised atomic storage is modelled as the all-NA payload, raw as
all-zero; `STRSXP`/`VECSXP` start NA/`R_NilValue` as in R). -/
def rf_allocVector : SexpKind → Nat → RVec
  | .nilsxp, _ => .nil
  | .rawsxp, n => .raw {} (List.replicate n 0)
  | .lglsxp, n => .lgl {} (List.replicate n none)
  | .intsxp, n => .int {} (List.replicate n none)
  | .realsxp, n => .real {} (List.replicate n none)
  | .cplxsxp, n => .cplx {} (List.replicate n none)
  | .strsxp, n => .chr {} (List.replicate n none)
  | .vecsxp, n => .vec {} (List.replicate n .nil)

/-- `Rf_copyMostAttrib(src, dst)`: copy every attribute of `src` except
`names` (`dim`/`dimnames` are not modelled), keeping `dst`'s `names`. -/
def rf_copyMostAttrib (src dst : RVec) : RVec :=
  dst.withAttrs { src.attrs with names := dst.attrs.names }

/-- The R `VECTOR_TYPE` enum of the converter's target shape (ptype). -/
inductive VectorType where
  | unspecified
  | lgl
  | int
  | dbl
  | chr
  | posixct
  | date
  | difftime
  | integer64
  | blob
  | listOf
  | dataFrame
  | other
deriving Repr, DecidableEq

/-- `nanoarrow_alloc_type` (materialize.c:41-54): allocate a plain vector
for the four basic vector types, `R_NilValue` otherwise. -/
def nanoarrow_alloc_type : VectorType → Nat → RVec
  | .lgl, n => rf_allocVector .lglsxp n
  | .int, n => rf_allocVector .intsxp n
  | .dbl, n => rf_allocVector .realsxp n
  | .chr, n => rf_allocVector .strsxp n
  | _, _ => .nil

mutual

/-- `nanoarrow_materialize_realloc` (materialize.c:111-151): allocate a
destination container of length `len` shaped after the ptype.  A factor
ptype with empty levels raises; a data-frame-style ptype allocates each
column recursively, copies `names`, copies most attributes, and, when the
ptype inherits `"data.frame"`, regenerates `row.names` for `len`; any
other object copies most attributes; a plain unclassed ptype gets a bare
`Rf_allocVector` of its `TYPEOF`. -/
def nanoarrow_materialize_realloc (ptype : RVec) (len : Nat) : Except RError RVec :=
  if ptype.isObject then
    if ptype.inherits "factor" && (ptype.attrs.levels.getD []).length == 0 then
      Except.error (.rError "Cant allocate ptype of class factor with empty levels")
    else if nanoarrow_ptype_is_data_frame ptype then
      match ptype with
      | .vec pa pcols => do
        let cols ← reallocCols pcols len
        let result := RVec.vec {} cols
        let result := result.withAttrs { result.attrs with names := pa.names }
        let result := rf_copyMostAttrib (.vec pa pcols) result
        if (RVec.vec pa pcols).inherits "data.frame" then
          pure (nanoarrow_set_rownames result len)
        else
          pure result
      | other =>
        -- dead branch: `nanoarrow_ptype_is_data_frame` requires `VECSXP`
        pure (rf_copyMostAttrib other (rf_allocVector other.sexpKind len))
    else
      pure (rf_copyMostAttrib ptype (rf_allocVector ptype.sexpKind len))
  else
    pure (rf_allocVector ptype.sexpKind len)

/-- Column loop of the data-frame branch of `nanoarrow_materialize_realloc`
(materialize.c:128-131). -/
def reallocCols : List RVec → Nat → Except RError (List RVec)
  | [], _ => pure []
  | c :: cs, len => do
    let c' ← nanoarrow_materialize_realloc c len
    let cs' ← reallocCols cs len
    pure (c' :: cs')

end

mutual

/-- `fill_vec_with_nulls` (materialize.c:154-207): set positions
`[offset, offset + len)` of a destination to its type's null sentinel,
recursing over the columns of a record-style destination.  The `RAWSXP`
branch transcribes `memset(RAW(x), 0, len)` — it writes `[0, len)` and
does not use `offset`.  `Rf_error` is modelled by returning `some`
error together with the partially modified value (the C code mutates in
place before raising). -/
def fill_vec_with_nulls (x : RVec) (offset len : Int) : Option RError × RVec :=
  if nanoarrow_ptype_is_data_frame x then
    match x with
    | .vec a cs =>
      match fillColsWithNulls cs offset len with
      | (e, cs') => (e, .vec a cs')
    | other => (none, other)  -- dead branch: the predicate requires `VECSXP`
  else
    match x with
    | .raw a bs => (none, .raw a (fillRange 0 bs 0 len))
    | .lgl a xs => (none, .lgl a (fillRange none xs offset len))
    | .int a xs => (none, .int a (fillRange none xs offset len))
    | .real a xs => (none, .real a (fillRange none xs offset len))
    | .cplx a xs => (none, .cplx a (fillRange none xs offset len))
    | .chr a xs => (none, .chr a (fillRange none xs offset len))
    | .vec a xs => (none, .vec a (fillRange .nil xs offset len))
    | .nil => (some (.rError "Attempt to fill vector with nulls with unsupported type"), .nil)

/-- Column loop of the record-style case of `fill_vec_with_nulls`
(materialize.c:156-158). -/
def fillColsWithNulls : List RVec → Int → Int → Option RError × List RVec
  | [], _, _ => (none, [])
  | c :: cs, offset, len =>
    match fill_vec_with_nulls c offset len with
    | (some e, c') => (some e, c' :: cs)
    | (none, c') =>
      match fillColsWithNulls cs offset len with
      | (e, cs') => (e, c' :: cs')

end

mutual

/-- `copy_vec_into` (materialize.c:209-271): copy a fallback result `x`
into the destination window `[offset, offset + len)` of `dst`.  A
record-style destination demands a record-style `x` with matching row
count and column count and copies column by column (strictly positional);
otherwise the `TYPEOF` and the length of `x` must match exactly.
`Rf_error` is modelled by `some` error plus the value as mutated so far. -/
def copy_vec_into (x dst : RVec) (offset len : Int) : Option RError × RVec :=
  if nanoarrow_ptype_is_data_frame dst then
    if !nanoarrow_ptype_is_data_frame x then
      (some (.rError "Expected record-style vctr result but got non-record-style result"), dst)
    else if (nanoarrow_data_frame_size x : Int) ≠ len then
      (some (.rError "Unexpected data.frame row count in copy_vec_into()"), dst)
    else if x.rlen ≠ dst.rlen then
      (some (.rError "Unexpected data.frame column count in copy_vec_into()"), dst)
    else
      match x, dst with
      | .vec _ xs, .vec a ds =>
        match copyColsInto xs ds offset len with
        | (e, ds') => (e, .vec a ds')
      | _, other => (none, other)  -- dead branch: both predicates require `VECSXP`
  else if nanoarrow_ptype_is_data_frame x then
    (some (.rError "Expected non-record-style vctr result but got record-style result"), dst)
  else if dst.sexpKind ≠ x.sexpKind then
    (some (.rError "Unexpected SEXP type in result copy_vec_into()"), dst)
  else if (x.rlen : Int) ≠ len then
    (some (.rError "Unexpected length of result in copy_vec_into()"), dst)
  else
    match x, dst with
    | .raw _ s, .raw a d => (none, .raw a (overlayRange s d offset len))
    | .lgl _ s, .lgl a d => (none, .lgl a (overlayRange s d offset len))
    | .int _ s, .int a d => (none, .int a (overlayRange s d offset len))
    | .real _ s, .real a d => (none, .real a (overlayRange s d offset len))
    | .cplx _ s, .cplx a d => (none, .cplx a (overlayRange s d offset len))
    | .chr _ s, .chr a d => (none, .chr a (overlayRange s d offset len))
    | .vec _ s, .vec a d => (none, .vec a (overlayRange s d offset len))
    | _, other => (some (.rError "Unhandled SEXP type in copy_vec_into()"), other)

/-- Column loop of the record-style case of `copy_vec_into`
(materialize.c:226-228). -/
def copyColsInto : List RVec → List RVec → Int → Int → Option RError × List RVec
  | [], ds, _, _ => (none, ds)
  | _ :: _, [], _, _ => (none, [])
  | x :: xs, d :: ds, offset, len =>
    match copy_vec_into x d offset len with
    | (some e, d') => (some e, d' :: ds)
    | (none, d') =>
      match copyColsInto xs ds offset len with
      | (e, ds') => (e, d' :: ds')

end

/-- The Arrow storage kinds dispatched on by the nested materializers. -/
inductive StorageType where
  | na
  | structType
  | denseUnion
  | sparseUnion
  | list
  | largeList
  | fixedSizeList
  | other
deriving Repr, DecidableEq

/-- The borrowed `ArrowArrayView` of a converter node, reduced to the
fields `materialize.c` reads.  `offsets32`/`offsets64` are the raw
offset-buffer reads (`buffer_views[1]`); `isNull` is
`ArrowArrayViewIsNull`; `unionChildIndex`/`unionChildOffset` are
`ArrowArrayViewUnionChildIndex`/`...Offset`.  These accessors live in the
vendored nanoarrow C library, which is not part of `src/`, so they are
plain function fields: every theorem holds for all of their behaviours. -/
structure ArrayView where
  storageType : StorageType := .other
  dictionary : Bool := false
  arrayOffset : Int := 0
  offsets32 : Int → Int := fun _ => 0
  offsets64 : Int → Int := fun _ => 0
  childSizeElements : Int := 0
  isNull : Int → Bool := fun _ => false
  unionChildIndex : Int → Nat := fun _ => 0
  unionChildOffset : Int → Int := fun _ => 0

/-- The per-node scalar fields of `struct RConverter`: the target shape
(`ptype_view`), the extension tag of the schema (`schema_view.extension_name`,
present iff nonempty), the borrowed array view, and the source/destination
slices (`src.offset/length`, `dst.offset/length`). -/
structure ConvInfo where
  vectorType : VectorType := .other
  extensionTag : String := ""
  arrayView : ArrayView := {}
  srcOffset : Int := 0
  srcLength : Int := 0
  dstOffset : Int := 0
  dstLength : Int := 0
  ptype : RVec := .nil

/-- A converter node (`struct RConverter`): scalar fields plus the ordered
child converters. -/
inductive RConverter where
  | node (info : ConvInfo) (children : List RConverter)

instance : Inhabited RConverter := ⟨.node {} []⟩

namespace RConverter

/-- The scalar fields of a node. -/
def info : RConverter → ConvInfo
  | .node i _ => i

/-- The child converters of a node. -/
def children : RConverter → List RConverter
  | .node _ cs => cs

/-- Rebind the source and destination slices of a node, as the nested
materializers do before recursing. -/
def setSlices : RConverter → Int → Int → Int → Int → RConverter
  | .node i cs, so, sl, dofs, dl =>
    .node { i with srcOffset := so, srcLength := sl, dstOffset := dofs, dstLength := dl } cs

/-- Replace the ptype of a node (`converter->ptype_view.ptype = ...`). -/
def setPtype : RConverter → RVec → RConverter
  | .node i cs, p => .node { i with ptype := p } cs

end RConverter

@[simp] theorem RConverter.info_setSlices (c : RConverter) (so sl dofs dl : Int) :
    (c.setSlices so sl dofs dl).info =
      { c.info with srcOffset := so, srcLength := sl, dstOffset := dofs, dstLength := dl } := by
  cases c; rfl

@[simp] theorem RConverter.children_setSlices (c : RConverter) (so sl dofs dl : Int) :
    (c.setSlices so sl dofs dl).children = c.children := by
  cases c; rfl

/-- The behaviours of the code this repository does not ship in `src/`,
kept fully abstract: the scalar materializers of `materialize_*.h`
(`scalar`), the R-side fallback `convert_fallback_other` (`fallback`,
returning the R value the host produced or raising), and the incremental
converter protocol of `convert.h` (`reserve`, `materializeN` returning the
count materialized, `finalize` returning a status, `releaseResult`
returning the built value).  Theorems quantifying over an `Oracle` hold
for every behaviour of that missing code. -/
structure Oracle where
  scalar : RConverter → RVec → Except RError (Int × RVec)
  fallback : RConverter → Except RError RVec
  reserve : RConverter → Int → Int
  materializeN : RConverter → Int → Int
  finalize : RConverter → Int
  releaseResult : RConverter → RVec

/-- Ptype setup at the head of `nanoarrow_materialize_other`
(materialize.c:276-281): when the converter carries no ptype SEXP,
install the best-guess allocation for its vector type so the call back
into R has one. -/
def ensurePtype (conv : RConverter) : RConverter :=
  match conv.info.ptype with
  | .nil => conv.setPtype (nanoarrow_alloc_type conv.info.vectorType 0)
  | _ => conv

/-- `nanoarrow_materialize_other` (materialize.c:273-312): ensure the
ptype SEXP exists, call back into R (`convert_fallback_other`, abstracted
as `σ.fallback`), and copy the returned value into the destination
window.  When it returns at all (rather than raising), its status is
`NANOARROW_OK`. -/
def nanoarrow_materialize_other (σ : Oracle) (conv : RConverter) (dst : RVec) :
    Except RError (Int × RVec) := do
  let result ← σ.fallback (ensurePtype conv)
  match copy_vec_into result dst conv.info.dstOffset conv.info.dstLength with
  | (some e, _) => Except.error e
  | (none, dst') => pure (NANOARROW_OK, dst')

/-- Column loop of the `STRUCT` case of `nanoarrow_materialize_data_frame`
(materialize.c:330-338): each child gets the parent's source and
destination slices verbatim and materializes into its own column; a
nonzero child status propagates immediately, keeping the columns already
written. -/
def structColsGo (recur : RConverter → RVec → Except RError (Int × RVec))
    (so sl dofs dl : Int) : List RConverter → List RVec → Except RError (Int × List RVec)
  | [], cls => pure (NANOARROW_OK, cls)
  | _ :: _, [] => pure (NANOARROW_OK, [])
  | c :: cs, col :: cls => do
    let (r, col') ← recur (c.setSlices so sl dofs dl) col
    if r ≠ NANOARROW_OK then
      pure (r, col' :: cls)
    else do
      let (r2, cls') ← structColsGo recur so sl dofs dl cs cls
      pure (r2, col' :: cls')

/-- Row loop of the union case of `nanoarrow_materialize_data_frame`
(materialize.c:348-360): for each row resolve the child index and child
offset from the union buffers, rebind that child to source slice
`(child_offset, 1)` and destination slice `(dst.offset + i, 1)`, and
materialize the single element into that child's column. -/
def unionRowsGo (recur : RConverter → RVec → Except RError (Int × RVec))
    (conv : RConverter) : List Int → List RVec → Except RError (Int × List RVec)
  | [], cls => pure (NANOARROW_OK, cls)
  | i :: is, cls =>
    let pos := conv.info.srcOffset + i
    let ci := conv.info.arrayView.unionChildIndex pos
    let co := conv.info.arrayView.unionChildOffset pos
    let child := (conv.children.getD ci default).setSlices co 1 (conv.info.dstOffset + i) 1
    do
      let (r, col') ← recur child (cls.getD ci RVec.nil)
      let cls' := cls.set ci col'
      if r ≠ NANOARROW_OK then
        pure (r, cls')
      else
        unionRowsGo recur conv is cls'

/-- `nanoarrow_materialize_data_frame` (materialize.c:314-366): reject a
non-record target shape or a dictionary-encoded array with `EINVAL`; a
`STRUCT` array materializes column by column; a dense or sparse union
array is first null-filled over the whole destination window and then
materialized row by row; other storage kinds report `ENOTSUP`. -/
def nanoarrow_materialize_data_frame (recur : RConverter → RVec → Except RError (Int × RVec))
    (conv : RConverter) (dst : RVec) : Except RError (Int × RVec) :=
  if conv.info.vectorType ≠ VectorType.dataFrame then pure (EINVAL, dst)
  else if conv.info.arrayView.dictionary then pure (EINVAL, dst)
  else
    match conv.info.arrayView.storageType with
    | .structType => do
      let (r, cols') ← structColsGo recur conv.info.srcOffset conv.info.srcLength
        conv.info.dstOffset conv.info.dstLength conv.children dst.cols
      pure (r, dst.withCols cols')
    | .denseUnion =>
      match fill_vec_with_nulls dst conv.info.dstOffset conv.info.dstLength with
      | (some e, _) => Except.error e
      | (none, dst1) => do
        let (r, cols') ← unionRowsGo recur conv (intRange conv.info.dstLength) dst1.cols
        pure (r, dst1.withCols cols')
    | .sparseUnion =>
      match fill_vec_with_nulls dst conv.info.dstOffset conv.info.dstLength with
      | (some e, _) => Except.error e
      | (none, dst1) => do
        let (r, cols') ← unionRowsGo recur conv (intRange conv.info.dstLength) dst1.cols
        pure (r, dst1.withCols cols')
    | _ => pure (ENOTSUP, dst)

/-- `materialize_list_element` (materialize.c:368-385): reserve capacity
on the child converter (a failed reservation stops the conversion with a
host error), rebind the child to source slice `(offset, length)` and
destination slice `(0, length)`, drive the child's incremental
materialization, and finalize.  Returns the status together with the
rebound child converter. -/
def materialize_list_element (σ : Oracle) (c : RConverter) (offset length : Int) :
    Except RError (Int × RConverter) :=
  if σ.reserve c length ≠ NANOARROW_OK then
    Except.error (.rError "nanoarrow_converter_stop")
  else
    let c' := c.setSlices offset length 0 length
    if σ.materializeN c' length ≠ length then
      pure (EINVAL, c')
    else
      let r := σ.finalize c'
      if r ≠ NANOARROW_OK then pure (r, c')
      else pure (NANOARROW_OK, c')

/-- Row loop of `nanoarrow_materialize_list_of` (materialize.c:412-447),
parameterized by the storage kind's `(offset, length)` resolution: a null
source row is skipped (its destination slot keeps its previous value and
no child conversion happens); otherwise the resolved sub-range is
materialized through the child converter and the released result is
stored at destination row `dst.offset + i`. -/
def listRowsGo (σ : Oracle) (av : ArrayView) (srcOff dstOff : Int)
    (resolve : Int → Int × Int) : List Int → RConverter → RVec → Except RError (Int × RVec)
  | [], _, dst => pure (NANOARROW_OK, dst)
  | i :: is, child, dst =>
    if av.isNull (srcOff + i) then
      listRowsGo σ av srcOff dstOff resolve is child dst
    else
      let (offset, length) := resolve i
      do
        let (r, child') ← materialize_list_element σ child offset length
        if r ≠ NANOARROW_OK then
          pure (r, dst)
        else
          listRowsGo σ av srcOff dstOff resolve is child'
            (dst.setElt (dstOff + i) (σ.releaseResult child'))

/-- `nanoarrow_materialize_list_of` (materialize.c:387-453): reject
dictionary-encoded arrays with `EINVAL`; a `NA` (null-type) array
succeeds immediately leaving the destination untouched; `LIST`,
`LARGE_LIST` and `FIXED_SIZE_LIST` run the row loop with their
offset-buffer arithmetic; any other storage kind is `EINVAL`. -/
def nanoarrow_materialize_list_of (σ : Oracle) (conv : RConverter) (dst : RVec) :
    Except RError (Int × RVec) :=
  let child := conv.children.getD 0 default
  let av := conv.info.arrayView
  if av.dictionary then pure (EINVAL, dst)
  else
    let rawSrcOffset := av.arrayOffset + conv.info.srcOffset
    match av.storageType with
    | .na => pure (NANOARROW_OK, dst)
    | .list =>
      listRowsGo σ av conv.info.srcOffset conv.info.dstOffset
        (fun i => (av.offsets32 (rawSrcOffset + i),
          av.offsets32 (rawSrcOffset + i + 1) - av.offsets32 (rawSrcOffset + i)))
        (intRange conv.info.dstLength) child dst
    | .largeList =>
      listRowsGo σ av conv.info.srcOffset conv.info.dstOffset
        (fun i => (av.offsets64 (rawSrcOffset + i),
          av.offsets64 (rawSrcOffset + i + 1) - av.offsets64 (rawSrcOffset + i)))
        (intRange conv.info.dstLength) child dst
    | .fixedSizeList =>
      listRowsGo σ av conv.info.srcOffset conv.info.dstOffset
        (fun i => ((rawSrcOffset + i) * av.childSizeElements, av.childSizeElements))
        (intRange conv.info.dstLength) child dst
    | _ => pure (EINVAL, dst)

/-- `nanoarrow_materialize_base` (materialize.c:455-493): a schema with an
extension tag routes straight to the fallback bridge; otherwise the
materializer is selected by the target shape — the scalar shapes go to
their scalar materializers (code outside `src/`, abstracted as
`σ.scalar`), `LIST_OF` and `DATA_FRAME` to the nested materializers, and
any unknown shape to the fallback bridge. -/
def nanoarrow_materialize_base (recur : RConverter → RVec → Except RError (Int × RVec))
    (σ : Oracle) (conv : RConverter) (dst : RVec) : Except RError (Int × RVec) :=
  if conv.info.extensionTag.length > 0 then
    nanoarrow_materialize_other σ conv dst
  else
    match conv.info.vectorType with
    | .listOf => nanoarrow_materialize_list_of σ conv dst
    | .dataFrame => nanoarrow_materialize_data_frame recur conv dst
    | .other => nanoarrow_materialize_other σ conv dst
    | _ => σ.scalar conv dst

/-- `nanoarrow_materialize` (materialize.c:495-503): run the base
materializer; any nonzero status makes exactly one retry through the
fallback bridge, whose outcome is final.  The `Nat` argument is recursion
fuel for the converter tree (the C recursion is bounded by the tree
depth); exhausted fuel is a distinguished error that never occurs with
fuel larger than the depth. -/
def nanoarrow_materialize (σ : Oracle) : Nat → RConverter → RVec → Except RError (Int × RVec)
  | 0, _, _ => Except.error RError.outOfFuel
  | fuel + 1, conv, dst =>
    match nanoarrow_materialize_base (nanoarrow_materialize σ fuel) σ conv dst with
    | Except.error e => Except.error e
    | Except.ok (result, dst') =>
      if result ≠ NANOARROW_OK then nanoarrow_materialize_other σ conv dst'
      else Except.ok (NANOARROW_OK, dst')

/-! ### Shared helper lemmas and concrete fixtures -/

/-- Whenever the fallback bridge returns at all, its status is
`NANOARROW_OK`: every failure inside it is a raised host error. -/
theorem materialize_other_ok_status (σ : Oracle) (conv : RConverter) (dst : RVec)
    (r : Int) (v : RVec) (h : nanoarrow_materialize_other σ conv dst = .ok (r, v)) :
    r = NANOARROW_OK := by
  unfold nanoarrow_materialize_other at h
  cases hf : σ.fallback (ensurePtype conv) with
  | error e => rw [hf] at h; simp [Bind.bind, Except.bind] at h
  | ok res =>
    rw [hf] at h
    simp only [Bind.bind, Except.bind] at h
    rcases hc : copy_vec_into res dst conv.info.dstOffset conv.info.dstLength with ⟨e, d⟩
    rw [hc] at h
    cases e with
    | some e0 => simp at h
    | none =>
      simp only [pure, Except.pure, Except.ok.injEq, Prod.mk.injEq] at h
      exact h.1.symm

/-- A trivial oracle: scalar materializers succeed without writing, the
fallback returns `R_NilValue`, and the converter protocol always
succeeds. -/
def oracle0 : Oracle where
  scalar := fun _ v => pure (NANOARROW_OK, v)
  fallback := fun _ => pure RVec.nil
  reserve := fun _ _ => NANOARROW_OK
  materializeN := fun _ n => n
  finalize := fun _ => NANOARROW_OK
  releaseResult := fun _ => RVec.nil

/-- `oracle0` with a fallback that returns a one-element integer vector
holding `99`. -/
def oracle99 : Oracle :=
  { oracle0 with fallback := fun _ => pure (.int {} [some 99]) }

/-- A converter for a dictionary-encoded struct array with a data-frame
target shape and a one-row destination window: its native materializer
reports `EINVAL` (not `ENOTSUP`). -/
def convDictDf : RConverter :=
  .node { vectorType := .dataFrame, arrayView := { dictionary := true },
          dstOffset := 0, dstLength := 1 } []

/-- A converter for an `int32` array with an integer target shape and a
one-row window. -/
def convInt : RConverter :=
  .node { vectorType := .int, dstOffset := 0, dstLength := 1 } []

/-- A converter for a dictionary-encoded `LIST` array with a list-of
target shape. -/
def convListDict : RConverter :=
  .node { vectorType := .listOf,
          arrayView := { storageType := .list, dictionary := true } } []

/-- A converter with a list-of target shape over (unrecognized) struct
storage. -/
def convListOverStruct : RConverter :=
  .node { vectorType := .listOf, arrayView := { storageType := .structType } } []

/-- A converter for a dictionary-encoded null-type (`NA`) array with a
list-of target shape. -/
def convNaDict : RConverter :=
  .node { vectorType := .listOf,
          arrayView := { storageType := .na, dictionary := true } } []

/-- A converter for a plain null-type (`NA`) array with a list-of target
shape. -/
def convNa : RConverter :=
  .node { vectorType := .listOf, arrayView := { storageType := .na } } []

/-! ### C9 — the top-level dispatcher never returns a nonzero status -/

/-- C9: whenever the top-level `nanoarrow_materialize` returns normally
(rather than raising a host error), its status is `NANOARROW_OK`: every
nonzero status of the native path is rerouted to the fallback bridge, and
the fallback bridge itself either returns `NANOARROW_OK` or raises. -/
theorem c9_materialize_ok_status :
    (∀ (σ : Oracle) (fuel : Nat) (conv : RConverter) (dst : RVec) (r : Int) (v : RVec),
      nanoarrow_materialize σ fuel conv dst = .ok (r, v) → r = NANOARROW_OK) ∧
    (∀ (σ : Oracle) (conv : RConverter) (dst : RVec) (r : Int) (v : RVec),
      nanoarrow_materialize_other σ conv dst = .ok (r, v) → r = NANOARROW_OK) := by
  constructor
  · intro σ fuel conv dst r v h
    cases fuel with
    | zero => simp [nanoarrow_materialize] at h
    | succ n =>
      unfold nanoarrow_materialize at h
      split at h
      · simp at h
      next ri dstp heq =>
        split at h
        · exact materialize_other_ok_status σ conv dstp r v h
        · simp only [Except.ok.injEq, Prod.mk.injEq] at h
          exact h.1.symm
  · exact fun σ conv dst r v h => materialize_other_ok_status σ conv dst r v h

/-- Witness for C9 at a concrete scalar conversion. -/
theorem c9_materialize_ok_status_witness :
    nanoarrow_materialize oracle0 1 convInt (.int {} [some 7]) =
      .ok (0, .int {} [some 7]) ∧ (0 : Int) = NANOARROW_OK :=
  ⟨rfl, c9_materialize_ok_status.1 oracle0 1 convInt (.int {} [some 7]) 0 (.int {} [some 7]) rfl⟩

/-! ### C1 — dispatcher routing and the single fallback retry -/

/-- Counterexample to C1 as stated: the native path of `convDictDf`
reports `EINVAL` (a dictionary-encoded struct array, not an
"unsupported" `ENOTSUP`), yet the dispatcher still reroutes to the
fallback bridge — the final result carries the fallback's write `99`,
not the base status `EINVAL`.  The claim's "only when the native attempt
reports unsupported (not for other base errors such as EINVAL)" is
false on the code. -/
theorem c1_retry_on_einval_counterexample :
    nanoarrow_materialize oracle99 1 convDictDf (.int {} [some 0]) =
        .ok (NANOARROW_OK, .int {} [some 99]) ∧
      nanoarrow_materialize_base (nanoarrow_materialize oracle99 0) oracle99 convDictDf
        (.int {} [some 0]) = .ok (EINVAL, .int {} [some 0]) ∧
      EINVAL ≠ ENOTSUP ∧ EINVAL ≠ NANOARROW_OK :=
  ⟨rfl, rfl, by decide, by decide⟩

/-- C1 (amended): an extension-tagged schema routes directly to the
fallback bridge; a successful native attempt is final; any nonzero native
status — `EINVAL` and `ENOTSUP` alike — triggers exactly one retry
through the fallback bridge, whose outcome (success or raised error) is
final; a host error raised inside the native attempt propagates with no
retry. -/
theorem c1_dispatch_fallback_policy :
    (∀ (σ : Oracle) (recur : RConverter → RVec → Except RError (Int × RVec))
        (conv : RConverter) (dst : RVec), 0 < conv.info.extensionTag.length →
      nanoarrow_materialize_base recur σ conv dst = nanoarrow_materialize_other σ conv dst) ∧
    (∀ (σ : Oracle) (fuel : Nat) (conv : RConverter) (dst : RVec) (d' : RVec),
      nanoarrow_materialize_base (nanoarrow_materialize σ fuel) σ conv dst =
          .ok (NANOARROW_OK, d') →
      nanoarrow_materialize σ (fuel + 1) conv dst = .ok (NANOARROW_OK, d')) ∧
    (∀ (σ : Oracle) (fuel : Nat) (conv : RConverter) (dst : RVec) (r : Int) (d' : RVec),
      nanoarrow_materialize_base (nanoarrow_materialize σ fuel) σ conv dst = .ok (r, d') →
      r ≠ NANOARROW_OK →
      nanoarrow_materialize σ (fuel + 1) conv dst = nanoarrow_materialize_other σ conv d') ∧
    (∀ (σ : Oracle) (fuel : Nat) (conv : RConverter) (dst : RVec) (e : RError),
      nanoarrow_materialize_base (nanoarrow_materialize σ fuel) σ conv dst = .error e →
      nanoarrow_materialize σ (fuel + 1) conv dst = .error e) := by
  refine ⟨?_, ?_, ?_, ?_⟩
  · intro σ recur conv dst hext
    unfold nanoarrow_materialize_base
    simp only [if_pos hext]
  · intro σ fuel conv dst d' hb
    unfold nanoarrow_materialize
    rw [hb]
    simp
  · intro σ fuel conv dst r d' hb hr
    unfold nanoarrow_materialize
    rw [hb]
    show (if r ≠ NANOARROW_OK then nanoarrow_materialize_other σ conv d'
      else Except.ok (NANOARROW_OK, d')) = nanoarrow_materialize_other σ conv d'
    rw [if_pos hr]
  · intro σ fuel conv dst e hb
    unfold nanoarrow_materialize
    rw [hb]

/-- Witness for the amended C1 at concrete inputs: an extension-tagged
node routes to the bridge, and the `EINVAL`-reporting `convDictDf` gets
exactly one fallback retry. -/
theorem c1_dispatch_fallback_policy_witness :
    nanoarrow_materialize_base (nanoarrow_materialize oracle99 0) oracle99
        (.node { vectorType := .int, extensionTag := "arrow.ext", dstLength := 1 } [])
        (.int {} [some 0]) =
      nanoarrow_materialize_other oracle99
        (.node { vectorType := .int, extensionTag := "arrow.ext", dstLength := 1 } [])
        (.int {} [some 0]) ∧
    nanoarrow_materialize oracle99 1 convDictDf (.int {} [some 0]) =
      nanoarrow_materialize_other oracle99 convDictDf (.int {} [some 0]) :=
  ⟨c1_dispatch_fallback_policy.1 oracle99 (nanoarrow_materialize oracle99 0)
      (.node { vectorType := .int, extensionTag := "arrow.ext", dstLength := 1 } [])
      (.int {} [some 0]) (by decide),
   c1_dispatch_fallback_policy.2.2.1 oracle99 0 convDictDf (.int {} [some 0]) EINVAL
      (.int {} [some 0]) rfl (by decide)⟩

/-! ### C7 — dictionary-encoded nested arrays and unknown list storage -/

/-- C7: a dictionary-carrying source makes the data-frame materializer
(struct and union storage) and the list-of materializer return `EINVAL`
with the destination untouched, and the list-of materializer returns
`EINVAL` for any storage kind other than `NA`/`LIST`/`LARGE_LIST`/
`FIXED_SIZE_LIST`, again with the destination untouched. -/
theorem c7_dictionary_and_unknown_storage_einval :
    (∀ (recur : RConverter → RVec → Except RError (Int × RVec)) (conv : RConverter)
        (dst : RVec), conv.info.arrayView.dictionary = true →
      nanoarrow_materialize_data_frame recur conv dst = .ok (EINVAL, dst)) ∧
    (∀ (σ : Oracle) (conv : RConverter) (dst : RVec),
        conv.info.arrayView.dictionary = true →
      nanoarrow_materialize_list_of σ conv dst = .ok (EINVAL, dst)) ∧
    (∀ (σ : Oracle) (conv : RConverter) (dst : RVec),
        conv.info.arrayView.dictionary = false →
        conv.info.arrayView.storageType ≠ .na →
        conv.info.arrayView.storageType ≠ .list →
        conv.info.arrayView.storageType ≠ .largeList →
        conv.info.arrayView.storageType ≠ .fixedSizeList →
      nanoarrow_materialize_list_of σ conv dst = .ok (EINVAL, dst)) := by
  refine ⟨?_, ?_, ?_⟩
  · intro recur conv dst hdict
    unfold nanoarrow_materialize_data_frame
    by_cases hv : conv.info.vectorType ≠ VectorType.dataFrame
    · rw [if_pos hv]; rfl
    · rw [if_neg hv, if_pos hdict]; rfl
  · intro σ conv dst hdict
    simp only [nanoarrow_materialize_list_of]
    rw [if_pos hdict]; rfl
  · intro σ conv dst hdict h1 h2 h3 h4
    simp only [nanoarrow_materialize_list_of]
    rw [if_neg (by simp [hdict])]
    cases hst : conv.info.arrayView.storageType with
    | na => exact absurd hst h1
    | list => exact absurd hst h2
    | largeList => exact absurd hst h3
    | fixedSizeList => exact absurd hst h4
    | structType => rfl
    | denseUnion => rfl
    | sparseUnion => rfl
    | other => rfl


/-- Witness for C7 at concrete converters: a dictionary-encoded struct
with record target, a dictionary-encoded list, and a list-of conversion
over (unrecognized) struct storage. -/
theorem c7_dictionary_and_unknown_storage_einval_witness :
    nanoarrow_materialize_data_frame (fun _ v => pure (NANOARROW_OK, v)) convDictDf
        (.int {} [some 0]) = .ok (EINVAL, .int {} [some 0]) ∧
    nanoarrow_materialize_list_of oracle0 convListDict (.vec {} [.nil]) =
        .ok (EINVAL, .vec {} [.nil]) ∧
    nanoarrow_materialize_list_of oracle0 convListOverStruct (.vec {} [.nil]) =
        .ok (EINVAL, .vec {} [.nil]) :=
  ⟨c7_dictionary_and_unknown_storage_einval.1 (fun _ v => pure (NANOARROW_OK, v)) convDictDf
      (.int {} [some 0]) rfl,
   c7_dictionary_and_unknown_storage_einval.2.1 oracle0 convListDict (.vec {} [.nil]) rfl,
   c7_dictionary_and_unknown_storage_einval.2.2 oracle0 convListOverStruct
      (.vec {} [.nil]) rfl (by decide) (by decide) (by decide) (by decide)⟩

/-! ### C10 — the null-type (NA) short circuit of the list materializer -/

/-- Counterexample to C10 as stated: an `NA`-storage list source that
carries a dictionary does not return success — the dictionary check runs
first and reports `EINVAL`. -/
theorem c10_na_with_dictionary_counterexample :
    nanoarrow_materialize_list_of oracle0 convNaDict (.vec {} [.nil]) =
        .ok (EINVAL, .vec {} [.nil]) ∧
      EINVAL ≠ NANOARROW_OK :=
  ⟨rfl, by decide⟩

/-- C10 (amended): for a list-of conversion whose source storage type is
the null type (`NA`) and which carries no dictionary, materialization
returns success immediately and leaves the destination wholly unchanged —
no destination row is written and no child conversion is attempted; this
short circuit also makes the top-level dispatcher succeed without any
fallback retry. -/
theorem c10_na_list_short_circuit :
    (∀ (σ : Oracle) (conv : RConverter) (dst : RVec),
        conv.info.arrayView.dictionary = false →
        conv.info.arrayView.storageType = .na →
      nanoarrow_materialize_list_of σ conv dst = .ok (NANOARROW_OK, dst)) ∧
    (∀ (σ : Oracle) (fuel : Nat) (conv : RConverter) (dst : RVec),
        conv.info.extensionTag = "" →
        conv.info.vectorType = .listOf →
        conv.info.arrayView.dictionary = false →
        conv.info.arrayView.storageType = .na →
      nanoarrow_materialize σ (fuel + 1) conv dst = .ok (NANOARROW_OK, dst)) := by
  have base : ∀ (σ : Oracle) (conv : RConverter) (dst : RVec),
      conv.info.arrayView.dictionary = false →
      conv.info.arrayView.storageType = .na →
      nanoarrow_materialize_list_of σ conv dst = .ok (NANOARROW_OK, dst) := by
    intro σ conv dst hdict hst
    simp only [nanoarrow_materialize_list_of]
    rw [if_neg (by simp [hdict]), hst]
    rfl
  refine ⟨base, ?_⟩
  intro σ fuel conv dst hext hv hdict hst
  unfold nanoarrow_materialize
  unfold nanoarrow_materialize_base
  rw [if_neg (by simp [hext]), hv]
  show (match nanoarrow_materialize_list_of σ conv dst with
    | Except.error e => Except.error e
    | Except.ok (result, dst') =>
      if result ≠ NANOARROW_OK then nanoarrow_materialize_other σ conv dst'
      else Except.ok (NANOARROW_OK, dst')) = Except.ok (NANOARROW_OK, dst)
  rw [base σ conv dst hdict hst]
  rfl

/-- Witness for the amended C10 at a concrete `NA`-storage list source. -/
theorem c10_na_list_short_circuit_witness :
    nanoarrow_materialize_list_of oracle0 convNa (.vec {} [.nil]) =
        .ok (NANOARROW_OK, .vec {} [.nil]) ∧
    nanoarrow_materialize oracle0 1 convNa (.vec {} [.nil]) =
        .ok (NANOARROW_OK, .vec {} [.nil]) :=
  ⟨c10_na_list_short_circuit.1 oracle0 convNa (.vec {} [.nil]) rfl rfl,
   c10_na_list_short_circuit.2 oracle0 0 convNa (.vec {} [.nil]) rfl rfl rfl rfl⟩

/-! ### C6 — allocation of the destination container -/

/-- Counterexample to C6 as stated: an unclassed integer descriptor with a
`names` attribute allocates a bare attribute-free vector — the
descriptor's attributes are not copied (`materialize.c:146` allocates
without `Rf_copyMostAttrib` when `Rf_isObject` is false). -/
theorem c6_plain_ptype_attrs_counterexample :
    nanoarrow_materialize_realloc (.int { names := some ["a"] } [some 5]) 2 =
        .ok (.int {} [none, none]) ∧
      ({ names := some ["a"] } : Attrs) ≠ ({} : Attrs) :=
  ⟨rfl, by decide⟩

/-- Fresh allocations carry no attributes. -/
theorem rf_allocVector_attrs (k : SexpKind) (n : Nat) : (rf_allocVector k n).attrs = {} := by
  cases k <;> rfl

/-- C6 (amended): allocating a factor target shape whose level domain is
empty fails with an allocation error for every requested length, while a
factor shape with a non-empty domain succeeds (in particular for length
0, producing the bare allocation with the descriptor's attributes except
`names`); every other scalar (non-record) shape produces a container of
the requested length, with the descriptor's attributes except `names`
copied when the descriptor is classed and nothing copied when it is
unclassed; a record-style descriptor allocates each column recursively
to the requested length, carries its attributes (`names` included) over
verbatim, and regenerates `row.names` for the requested length when it
inherits `"data.frame"`; and the allocation of any non-nil kind has
exactly the requested length. -/
theorem c6_realloc_factor_and_attrs :
    (∀ (ptype : RVec) (len : Nat), ptype.inherits "factor" = true →
        ptype.attrs.levels.getD [] = [] →
      nanoarrow_materialize_realloc ptype len =
        .error (.rError "Cant allocate ptype of class factor with empty levels")) ∧
    (∀ (ptype : RVec) (len : Nat), ptype.inherits "factor" = true →
        ptype.attrs.levels.getD [] ≠ [] → nanoarrow_ptype_is_data_frame ptype = false →
      nanoarrow_materialize_realloc ptype len =
        .ok ((rf_allocVector ptype.sexpKind len).withAttrs
          { ptype.attrs with names := none })) ∧
    (∀ (ptype : RVec) (len : Nat), ptype.isObject = true →
        ptype.inherits "factor" = false → nanoarrow_ptype_is_data_frame ptype = false →
      nanoarrow_materialize_realloc ptype len =
        .ok ((rf_allocVector ptype.sexpKind len).withAttrs
          { ptype.attrs with names := none })) ∧
    (∀ (ptype : RVec) (len : Nat), ptype.isObject = false →
      nanoarrow_materialize_realloc ptype len = .ok (rf_allocVector ptype.sexpKind len)) ∧
    (∀ (a : Attrs) (cs : List RVec) (len : Nat),
        nanoarrow_ptype_is_data_frame (.vec a cs) = true →
        ((RVec.vec a cs).inherits "factor" &&
          ((RVec.vec a cs).attrs.levels.getD []).length == 0) = false →
      nanoarrow_materialize_realloc (.vec a cs) len =
        match reallocCols cs len with
        | .error e => .error e
        | .ok cols' =>
          if (RVec.vec a cs).inherits "data.frame" then
            .ok (.vec { a with rowNames := some len } cols')
          else .ok (.vec a cols')) ∧
    (∀ (k : SexpKind) (len : Nat) (a : Attrs), k ≠ SexpKind.nilsxp →
      (rf_allocVector k len).rlen = len ∧ ((rf_allocVector k len).withAttrs a).rlen = len) := by
  refine ⟨?_, ?_, ?_, ?_, ?_, ?_⟩
  · intro ptype len hf hl
    have hobj : ptype.isObject = true := by
      simp only [RVec.inherits, decide_eq_true_eq] at hf
      simp only [RVec.isObject, ne_eq, decide_eq_true_eq]
      exact List.ne_nil_of_mem hf
    unfold nanoarrow_materialize_realloc
    rw [if_pos hobj, if_pos (by simp [hf, hl])]
  · intro ptype len hf hl hdf
    have hobj : ptype.isObject = true := by
      simp only [RVec.inherits, decide_eq_true_eq] at hf
      simp only [RVec.isObject, ne_eq, decide_eq_true_eq]
      exact List.ne_nil_of_mem hf
    unfold nanoarrow_materialize_realloc
    rw [if_pos hobj, if_neg (by simp [hf, List.length_eq_zero]; exact hl),
      if_neg (by simp [hdf])]
    unfold rf_copyMostAttrib
    rw [rf_allocVector_attrs]
    rfl
  · intro ptype len hobj hf hdf
    unfold nanoarrow_materialize_realloc
    rw [if_pos hobj, if_neg (by simp [hf]), if_neg (by simp [hdf])]
    unfold rf_copyMostAttrib
    rw [rf_allocVector_attrs]
    rfl
  · intro ptype len hobj
    unfold nanoarrow_materialize_realloc
    rw [if_neg (by simp [hobj])]
    rfl
  · intro a cs len hdf hnf
    have hobj : (RVec.vec a cs).isObject = true := by
      have hx := hdf
      simp only [nanoarrow_ptype_is_data_frame, Bool.and_eq_true] at hx
      exact hx.1.1
    unfold nanoarrow_materialize_realloc
    rw [if_pos hobj, if_neg (by simp [hnf]), if_pos hdf]
    dsimp only
    cases hrc : reallocCols cs len with
    | error e => simp [Bind.bind, Except.bind]
    | ok cols' =>
      simp only [Bind.bind, Except.bind]
      by_cases hin : (RVec.vec a cs).inherits "data.frame" = true
      · rw [if_pos hin, if_pos hin]
        rfl
      · rw [if_neg hin, if_neg hin]
        rfl
  · intro k len a hk
    cases k
    case nilsxp => exact absurd rfl hk
    all_goals exact ⟨by simp [rf_allocVector, RVec.rlen],
      by simp [rf_allocVector, RVec.rlen, RVec.withAttrs]⟩

/-- Witness for the amended C6: an empty-level factor fails at lengths 0
and 3; a two-level factor succeeds at length 0; a classed non-factor
character descriptor and an unclassed double descriptor allocate the
requested length; a data-frame descriptor allocates its column
recursively, keeps `names`, and regenerates `row.names`; and a concrete
allocation has the requested length. -/
theorem c6_realloc_factor_and_attrs_witness :
    nanoarrow_materialize_realloc (.int { classes := ["factor"] } []) 3 =
        .error (.rError "Cant allocate ptype of class factor with empty levels") ∧
    nanoarrow_materialize_realloc (.int { classes := ["factor"] } []) 0 =
        .error (.rError "Cant allocate ptype of class factor with empty levels") ∧
    nanoarrow_materialize_realloc
        (.int { classes := ["factor"], levels := some ["a", "b"] } []) 0 =
      .ok (.int { classes := ["factor"], levels := some ["a", "b"] } []) ∧
    nanoarrow_materialize_realloc
        (.chr { classes := ["myclass"], names := some ["n"] } [some "s"]) 2 =
      .ok (.chr { classes := ["myclass"] } [none, none]) ∧
    nanoarrow_materialize_realloc (.real {} [some 1]) 1 = .ok (.real {} [none]) ∧
    nanoarrow_materialize_realloc
        (.vec { classes := ["data.frame"], names := some ["x"] } [.int {} []]) 2 =
      .ok (.vec { classes := ["data.frame"], names := some ["x"], rowNames := some 2 }
        [.int {} [none, none]]) ∧
    (rf_allocVector .intsxp 3).rlen = 3 :=
  ⟨c6_realloc_factor_and_attrs.1 (.int { classes := ["factor"] } []) 3 (by decide) rfl,
   c6_realloc_factor_and_attrs.1 (.int { classes := ["factor"] } []) 0 (by decide) rfl,
   c6_realloc_factor_and_attrs.2.1 (.int { classes := ["factor"], levels := some ["a", "b"] } [])
      0 (by decide) (by decide) rfl,
   c6_realloc_factor_and_attrs.2.2.1
      (.chr { classes := ["myclass"], names := some ["n"] } [some "s"]) 2
      (by decide) (by decide) rfl,
   c6_realloc_factor_and_attrs.2.2.2.1 (.real {} [some 1]) 1 rfl,
   c6_realloc_factor_and_attrs.2.2.2.2.1 { classes := ["data.frame"], names := some ["x"] }
      [.int {} []] 2 rfl rfl,
   (c6_realloc_factor_and_attrs.2.2.2.2.2 SexpKind.intsxp 3 {} (by decide)).1⟩

/-! ### C8 — the union pre-fill and the raw destination window -/

/-- C8 records a code bug: the `RAWSXP` branch of `fill_vec_with_nulls`
(materialize.c:164-166) runs `memset(RAW(x), 0, len)` from index 0 and
ignores `offset`, so for a raw destination with `offset = 1, len = 1` the
window position 1 keeps its old byte `7` while position 0 — outside the
window — is clobbered to `0`, and no error is raised; every other branch
(here `INTSXP` for contrast) writes its NA sentinel exactly over
`[offset, offset + len)` as the spec's "null-fill the entire destination
slice" demands. -/
theorem c8_raw_fill_ignores_offset :
    fill_vec_with_nulls (.raw {} [7, 7]) 1 1 = (none, .raw {} [0, 7]) ∧
    fill_vec_with_nulls (.int {} [some 7, some 7]) 1 1 = (none, .int {} [some 7, none]) ∧
    fill_vec_with_nulls (.vec { classes := ["data.frame"], names := some ["x", "y"] }
        [.raw {} [7, 7], .chr {} [some "u", some "v"]]) 1 1 =
      (none, .vec { classes := ["data.frame"], names := some ["x", "y"] }
        [.raw {} [0, 7], .chr {} [some "u", none]]) :=
  ⟨rfl, rfl, rfl⟩

/-! ### C5 — validation in the fallback bridge copy -/

/-- A two-column record destination: an `int` column and a `chr` column,
both of length 2. -/
def dfDst : RVec :=
  .vec { classes := ["data.frame"], names := some ["a", "b"] }
    [.int {} [some 0, some 0], .chr {} [some "p", some "q"]]

/-- A fallback result whose first column matches `dfDst` but whose second
column has length 1 instead of 2: the top-level row-count check passes
(it only measures the first column), and the mismatch surfaces inside
column 1 after column 0 has already been copied. -/
def dfBadResult : RVec :=
  .vec { classes := ["data.frame"], names := some ["a", "b"] }
    [.int {} [some 1, some 2], .chr {} [some "z"]]

/-- Counterexample to C5 as stated: copying `dfBadResult` into `dfDst`
raises the length-mismatch error, but only after the first column was
already written — the destination is modified by the failing call, so the
mismatch is not "raised before any element of that result is written". -/
theorem c5_partial_write_before_error_counterexample :
    copy_vec_into dfBadResult dfDst 0 2 =
        (some (.rError "Unexpected length of result in copy_vec_into()"),
          .vec { classes := ["data.frame"], names := some ["a", "b"] }
            [.int {} [some 1, some 2], .chr {} [some "p", some "q"]]) ∧
      (RVec.vec { classes := ["data.frame"], names := some ["a", "b"] }
          [.int {} [some 1, some 2], .chr {} [some "p", some "q"]]) ≠ dfDst :=
  ⟨rfl, by simp [dfDst]⟩

/-- C5 (amended): a record-style destination requires a record-style
result with the requested row count (measured on the first column) and
the same column count, and columns are copied strictly by position; a
non-record destination requires the result's `TYPEOF` and length to
match exactly.  Each of these checks raises a hard error before any
element of the vector it guards is written, and when one of the
*top-level* checks fails the destination is returned unmodified — but a
mismatch inside a later column of a record copy is raised only after
earlier columns were already copied, so the failing call may leave the
destination partially modified. -/
theorem c5_copy_vec_into_validation :
    (∀ (x dst : RVec) (offset len : Int), nanoarrow_ptype_is_data_frame dst = true →
        nanoarrow_ptype_is_data_frame x = false →
      copy_vec_into x dst offset len =
        (some (.rError "Expected record-style vctr result but got non-record-style result"),
          dst)) ∧
    (∀ (x dst : RVec) (offset len : Int), nanoarrow_ptype_is_data_frame dst = true →
        nanoarrow_ptype_is_data_frame x = true →
        (nanoarrow_data_frame_size x : Int) ≠ len →
      copy_vec_into x dst offset len =
        (some (.rError "Unexpected data.frame row count in copy_vec_into()"), dst)) ∧
    (∀ (x dst : RVec) (offset len : Int), nanoarrow_ptype_is_data_frame dst = true →
        nanoarrow_ptype_is_data_frame x = true →
        (nanoarrow_data_frame_size x : Int) = len → x.rlen ≠ dst.rlen →
      copy_vec_into x dst offset len =
        (some (.rError "Unexpected data.frame column count in copy_vec_into()"), dst)) ∧
    (∀ (x dst : RVec) (offset len : Int), nanoarrow_ptype_is_data_frame dst = false →
        nanoarrow_ptype_is_data_frame x = false → dst.sexpKind ≠ x.sexpKind →
      copy_vec_into x dst offset len =
        (some (.rError "Unexpected SEXP type in result copy_vec_into()"), dst)) ∧
    (∀ (x dst : RVec) (offset len : Int), nanoarrow_ptype_is_data_frame dst = false →
        nanoarrow_ptype_is_data_frame x = false → dst.sexpKind = x.sexpKind →
        (x.rlen : Int) ≠ len →
      copy_vec_into x dst offset len =
        (some (.rError "Unexpected length of result in copy_vec_into()"), dst)) := by
  refine ⟨?_, ?_, ?_, ?_, ?_⟩
  · intro x dst offset len hdst hx
    unfold copy_vec_into
    rw [if_pos hdst, if_pos (by simp [hx])]
  · intro x dst offset len hdst hx hrow
    unfold copy_vec_into
    rw [if_pos hdst, if_neg (by simp [hx]), if_pos hrow]
  · intro x dst offset len hdst hx hrow hcol
    unfold copy_vec_into
    rw [if_pos hdst, if_neg (by simp [hx]), if_neg (by simp [hrow]), if_pos hcol]
  · intro x dst offset len hdst hx hty
    unfold copy_vec_into
    rw [if_neg (by simp [hdst]), if_neg (by simp [hx]), if_pos hty]
  · intro x dst offset len hdst hx hty hlen
    unfold copy_vec_into
    rw [if_neg (by simp [hdst]), if_neg (by simp [hx]), if_neg (by simp [hty]),
      if_pos hlen]

/-- Witness for the amended C5: each top-level validation fires at a
concrete input and leaves the destination unmodified. -/
theorem c5_copy_vec_into_validation_witness :
    copy_vec_into (.int {} [some 1]) dfDst 0 1 =
        (some (.rError "Expected record-style vctr result but got non-record-style result"),
          dfDst) ∧
    copy_vec_into dfBadResult dfDst 0 5 =
        (some (.rError "Unexpected data.frame row count in copy_vec_into()"), dfDst) ∧
    copy_vec_into (.vec { classes := ["data.frame"], names := some ["a"] }
          [.int {} [some 1, some 2]]) dfDst 0 2 =
        (some (.rError "Unexpected data.frame column count in copy_vec_into()"), dfDst) ∧
    copy_vec_into (.chr {} [some "z"]) (.int {} [some 0]) 0 1 =
        (some (.rError "Unexpected SEXP type in result copy_vec_into()"), .int {} [some 0]) ∧
    copy_vec_into (.int {} [some 1]) (.int {} [some 0, some 0]) 0 2 =
        (some (.rError "Unexpected length of result in copy_vec_into()"),
          .int {} [some 0, some 0]) :=
  ⟨c5_copy_vec_into_validation.1 (.int {} [some 1]) dfDst 0 1 rfl rfl,
   c5_copy_vec_into_validation.2.1 dfBadResult dfDst 0 5 rfl rfl (by decide),
   c5_copy_vec_into_validation.2.2.1 (.vec { classes := ["data.frame"], names := some ["a"] }
      [.int {} [some 1, some 2]]) dfDst 0 2 rfl rfl rfl (by decide),
   c5_copy_vec_into_validation.2.2.2.1 (.chr {} [some "z"]) (.int {} [some 0]) 0 1
      rfl rfl (by decide),
   c5_copy_vec_into_validation.2.2.2.2 (.int {} [some 1]) (.int {} [some 0, some 0]) 0 2
      rfl rfl rfl (by decide)⟩

/-! ### C4 — the slice-length invariant across rebinding -/

/-- The struct column loop only ever invokes the recursive materializer on
children rebound to exactly the given source offset/length and
destination offset/length: two materializers that agree on all such
converters drive the loop to the same result. -/
theorem structColsGo_congr (recur1 recur2 : RConverter → RVec → Except RError (Int × RVec))
    (so sl dofs dl : Int)
    (h : ∀ (c : RConverter) (v : RVec), c.info.srcOffset = so → c.info.srcLength = sl →
      c.info.dstOffset = dofs → c.info.dstLength = dl → recur1 c v = recur2 c v) :
    ∀ (cs : List RConverter) (cls : List RVec),
      structColsGo recur1 so sl dofs dl cs cls = structColsGo recur2 so sl dofs dl cs cls := by
  intro cs
  induction cs with
  | nil => intro cls; rfl
  | cons c rest ih =>
    intro cls
    cases cls with
    | nil => rfl
    | cons col cls0 =>
      simp only [structColsGo]
      rw [h (c.setSlices so sl dofs dl) col (by simp) (by simp) (by simp) (by simp)]
      cases hres : recur2 (c.setSlices so sl dofs dl) col with
      | error e => rfl
      | ok p =>
        obtain ⟨r, col'⟩ := p
        simp only [Bind.bind, Except.bind]
        by_cases hr : r ≠ NANOARROW_OK
        · rw [if_pos hr, if_pos hr]
        · rw [if_neg hr, if_neg hr, ih cls0]

/-- The union row loop only ever invokes the recursive materializer on
children rebound to source and destination slices of length 1. -/
theorem unionRowsGo_congr (recur1 recur2 : RConverter → RVec → Except RError (Int × RVec))
    (conv : RConverter)
    (h : ∀ (c : RConverter) (v : RVec), c.info.srcLength = 1 → c.info.dstLength = 1 →
      recur1 c v = recur2 c v) :
    ∀ (rows : List Int) (cls : List RVec),
      unionRowsGo recur1 conv rows cls = unionRowsGo recur2 conv rows cls := by
  intro rows
  induction rows with
  | nil => intro cls; rfl
  | cons i is ih =>
    intro cls
    simp only [unionRowsGo]
    rw [h _ _ (by simp) (by simp)]
    cases hres : recur2 ((conv.children.getD
        (conv.info.arrayView.unionChildIndex (conv.info.srcOffset + i)) default).setSlices
        (conv.info.arrayView.unionChildOffset (conv.info.srcOffset + i)) 1
        (conv.info.dstOffset + i) 1)
        (cls.getD (conv.info.arrayView.unionChildIndex (conv.info.srcOffset + i)) RVec.nil) with
    | error e => rfl
    | ok p =>
      obtain ⟨r, col'⟩ := p
      simp only [Bind.bind, Except.bind]
      by_cases hr : r ≠ NANOARROW_OK
      · rw [if_pos hr, if_pos hr]
      · rw [if_neg hr, if_neg hr, ih]

/-- `materialize_list_element` rebinds the child it returns (and drives
through the converter protocol) to source length and destination length
both equal to the resolved element-range length. -/
theorem materialize_list_element_slices (σ : Oracle) (c : RConverter) (offset length : Int)
    (r : Int) (c' : RConverter) (h : materialize_list_element σ c offset length = .ok (r, c')) :
    c'.info.srcOffset = offset ∧ c'.info.srcLength = length ∧
      c'.info.dstOffset = 0 ∧ c'.info.dstLength = length := by
  unfold materialize_list_element at h
  by_cases hres : σ.reserve c length ≠ NANOARROW_OK
  · rw [if_pos hres] at h
    exact absurd h (by simp)
  · rw [if_neg hres] at h
    have hc : c' = c.setSlices offset length 0 length := by
      by_cases hm : σ.materializeN (c.setSlices offset length 0 length) length ≠ length
      · rw [if_pos hm] at h
        simp only [pure, Except.pure, Except.ok.injEq, Prod.mk.injEq] at h
        exact h.2.symm
      · rw [if_neg hm] at h
        by_cases hf : σ.finalize (c.setSlices offset length 0 length) ≠ NANOARROW_OK
        · rw [if_pos hf] at h
          simp only [pure, Except.pure, Except.ok.injEq, Prod.mk.injEq] at h
          exact h.2.symm
        · rw [if_neg hf] at h
          simp only [pure, Except.pure, Except.ok.injEq, Prod.mk.injEq] at h
          exact h.2.symm
    subst hc
    simp

/-- C4: every nested materializer preserves the equal-length slice
invariant when rebasing children — the struct path hands every child
exactly the parent's source/destination offsets and lengths, the union
path hands every child slices of length 1, the list path rebinds the
child's source and destination lengths both to the resolved element-range
length, and consequently the data-frame materializer of a node whose own
source and destination lengths agree only ever recurses on children whose
lengths also agree. -/
theorem c4_slice_length_invariant :
    (∀ (recur1 recur2 : RConverter → RVec → Except RError (Int × RVec)) (so sl dofs dl : Int),
      (∀ (c : RConverter) (v : RVec), c.info.srcOffset = so → c.info.srcLength = sl →
        c.info.dstOffset = dofs → c.info.dstLength = dl → recur1 c v = recur2 c v) →
      ∀ (cs : List RConverter) (cls : List RVec),
        structColsGo recur1 so sl dofs dl cs cls = structColsGo recur2 so sl dofs dl cs cls) ∧
    (∀ (recur1 recur2 : RConverter → RVec → Except RError (Int × RVec)) (conv : RConverter),
      (∀ (c : RConverter) (v : RVec), c.info.srcLength = 1 → c.info.dstLength = 1 →
        recur1 c v = recur2 c v) →
      ∀ (rows : List Int) (cls : List RVec),
        unionRowsGo recur1 conv rows cls = unionRowsGo recur2 conv rows cls) ∧
    (∀ (σ : Oracle) (c : RConverter) (offset length r : Int) (c' : RConverter),
      materialize_list_element σ c offset length = .ok (r, c') →
      c'.info.srcLength = length ∧ c'.info.dstLength = length) ∧
    (∀ (recur1 recur2 : RConverter → RVec → Except RError (Int × RVec)) (conv : RConverter)
        (dst : RVec), conv.info.srcLength = conv.info.dstLength →
      (∀ (c : RConverter) (v : RVec), c.info.srcLength = c.info.dstLength →
        recur1 c v = recur2 c v) →
      nanoarrow_materialize_data_frame recur1 conv dst =
        nanoarrow_materialize_data_frame recur2 conv dst) := by
  refine ⟨structColsGo_congr, unionRowsGo_congr, ?_, ?_⟩
  · intro σ c offset length r c' h
    have hs := materialize_list_element_slices σ c offset length r c' h
    exact ⟨hs.2.1, hs.2.2.2⟩
  · intro recur1 recur2 conv dst hws h
    unfold nanoarrow_materialize_data_frame
    by_cases hv : conv.info.vectorType ≠ VectorType.dataFrame
    · simp only [if_pos hv]
    · simp only [if_neg hv]
      by_cases hdict : conv.info.arrayView.dictionary = true
      · simp only [if_pos hdict]
      · simp only [if_neg hdict]
        cases conv.info.arrayView.storageType with
        | structType =>
          rw [structColsGo_congr recur1 recur2 conv.info.srcOffset conv.info.srcLength
            conv.info.dstOffset conv.info.dstLength
            (fun c v h1 h2 h3 h4 => h c v (by rw [h2, h4]; exact hws)) conv.children dst.cols]
        | denseUnion =>
          cases fill_vec_with_nulls dst conv.info.dstOffset conv.info.dstLength with
          | mk e dst1 =>
            cases e with
            | some e0 => rfl
            | none =>
              simp only
              rw [unionRowsGo_congr recur1 recur2 conv
                (fun c v h1 h2 => h c v (by rw [h1, h2]))]
        | sparseUnion =>
          cases fill_vec_with_nulls dst conv.info.dstOffset conv.info.dstLength with
          | mk e dst1 =>
            cases e with
            | some e0 => rfl
            | none =>
              simp only
              rw [unionRowsGo_congr recur1 recur2 conv
                (fun c v h1 h2 => h c v (by rw [h1, h2]))]
        | na => rfl
        | list => rfl
        | largeList => rfl
        | fixedSizeList => rfl
        | other => rfl

/-- Witness for C4 at concrete loops: both conjuncts instantiated with the
same trivially agreeing materializers and a concrete one-row union
element. -/
theorem c4_slice_length_invariant_witness :
    structColsGo (fun _ v => pure (NANOARROW_OK, v)) 0 2 0 2 [convInt] [.int {} [some 1]] =
        structColsGo (fun _ v => pure (NANOARROW_OK, v)) 0 2 0 2 [convInt]
          [.int {} [some 1]] ∧
    (materialize_list_element oracle0 convInt 3 2 = .ok (NANOARROW_OK, convInt.setSlices 3 2 0 2) ∧
      (convInt.setSlices 3 2 0 2).info.srcLength = 2 ∧
      (convInt.setSlices 3 2 0 2).info.dstLength = 2) ∧
    nanoarrow_materialize_data_frame (fun _ v => pure (NANOARROW_OK, v))
        (RConverter.node {} []) (.int {} [some 0]) =
      nanoarrow_materialize_data_frame (fun _ v => pure (NANOARROW_OK, v))
        (RConverter.node {} []) (.int {} [some 0]) :=
  ⟨c4_slice_length_invariant.1 (fun _ v => pure (NANOARROW_OK, v))
      (fun _ v => pure (NANOARROW_OK, v)) 0 2 0 2 (fun _ _ _ _ _ _ => rfl)
      [convInt] [.int {} [some 1]],
   ⟨rfl, c4_slice_length_invariant.2.2.1 oracle0 convInt 3 2 NANOARROW_OK
      (convInt.setSlices 3 2 0 2) rfl⟩,
   c4_slice_length_invariant.2.2.2 (fun _ v => pure (NANOARROW_OK, v))
      (fun _ v => pure (NANOARROW_OK, v)) (RConverter.node {} []) (.int {} [some 0]) rfl
      (fun _ _ _ => rfl)⟩

/-! ### C2 — the union materializer against its specification -/

mutual

/-- True when no `RAWSXP` value occurs anywhere in a value (recursively
through `VECSXP` children). -/
def RVec.rawFree : RVec → Bool
  | .raw _ _ => false
  | .vec _ xs => RVec.rawFreeList xs
  | _ => true

/-- `RVec.rawFree` over a column list. -/
def RVec.rawFreeList : List RVec → Bool
  | [] => true
  | x :: xs => RVec.rawFree x && RVec.rawFreeList xs

end

mutual

/-- The null pre-fill of the union conversion, written from the spec's
words (§4.4 Union: "default value = null/empty in every position,
recursively for structured destinations"): every position of the window
`[offset, offset + len)` becomes the destination kind's null default —
NA for logical/integer, `NA_REAL` for double, the NA complex for
complex, `NA_STRING` for character, `R_NilValue` for list slots —
recursively for each column of a record-style destination; a kind
outside this enumeration (raw included) is unsupported.  This definition
follows the spec, not the code: the code's raw branch instead zeroes
`[0, len)`, the defect recorded under C8. -/
def nullFillWindow (x : RVec) (offset len : Int) : Option RError × RVec :=
  if nanoarrow_ptype_is_data_frame x then
    match x with
    | .vec a cs =>
      match nullFillWindowCols cs offset len with
      | (e, cs') => (e, .vec a cs')
    | other => (none, other)
  else
    match x with
    | .lgl a xs => (none, .lgl a (fillRange none xs offset len))
    | .int a xs => (none, .int a (fillRange none xs offset len))
    | .real a xs => (none, .real a (fillRange none xs offset len))
    | .cplx a xs => (none, .cplx a (fillRange none xs offset len))
    | .chr a xs => (none, .chr a (fillRange none xs offset len))
    | .vec a xs => (none, .vec a (fillRange .nil xs offset len))
    | other =>
      (some (.rError "Attempt to fill vector with nulls with unsupported type"), other)

/-- `nullFillWindow` over the columns of a record-style destination. -/
def nullFillWindowCols : List RVec → Int → Int → Option RError × List RVec
  | [], _, _ => (none, [])
  | c :: cs, offset, len =>
    match nullFillWindow c offset len with
    | (some e, c') => (some e, c' :: cs)
    | (none, c') =>
      match nullFillWindowCols cs offset len with
      | (e, cs') => (e, c' :: cs')

end

mutual

/-- On raw-free destinations the embedded fill coincides with the
spec-worded window fill: the two differ only in the raw branch. -/
theorem fill_vec_with_nulls_eq_nullFillWindow (x : RVec) (offset len : Int)
    (h : x.rawFree = true) :
    fill_vec_with_nulls x offset len = nullFillWindow x offset len := by
  cases x with
  | raw a bs => simp [RVec.rawFree] at h
  | nil => rfl
  | vec a cs =>
    have hcs : RVec.rawFreeList cs = true := by simpa [RVec.rawFree] using h
    by_cases hdf : nanoarrow_ptype_is_data_frame (.vec a cs) = true
    · simp [fill_vec_with_nulls, nullFillWindow, hdf,
        fillColsWithNulls_eq_nullFillWindowCols cs offset len hcs]
    · simp [fill_vec_with_nulls, nullFillWindow, hdf]
  | lgl a xs =>
    by_cases hdf : nanoarrow_ptype_is_data_frame (.lgl a xs) = true
    · simp [fill_vec_with_nulls, nullFillWindow, hdf]
    · simp [fill_vec_with_nulls, nullFillWindow, hdf]
  | int a xs =>
    by_cases hdf : nanoarrow_ptype_is_data_frame (.int a xs) = true
    · simp [fill_vec_with_nulls, nullFillWindow, hdf]
    · simp [fill_vec_with_nulls, nullFillWindow, hdf]
  | real a xs =>
    by_cases hdf : nanoarrow_ptype_is_data_frame (.real a xs) = true
    · simp [fill_vec_with_nulls, nullFillWindow, hdf]
    · simp [fill_vec_with_nulls, nullFillWindow, hdf]
  | cplx a xs =>
    by_cases hdf : nanoarrow_ptype_is_data_frame (.cplx a xs) = true
    · simp [fill_vec_with_nulls, nullFillWindow, hdf]
    · simp [fill_vec_with_nulls, nullFillWindow, hdf]
  | chr a xs =>
    by_cases hdf : nanoarrow_ptype_is_data_frame (.chr a xs) = true
    · simp [fill_vec_with_nulls, nullFillWindow, hdf]
    · simp [fill_vec_with_nulls, nullFillWindow, hdf]

/-- Column version of `fill_vec_with_nulls_eq_nullFillWindow`. -/
theorem fillColsWithNulls_eq_nullFillWindowCols (cs : List RVec) (offset len : Int)
    (h : RVec.rawFreeList cs = true) :
    fillColsWithNulls cs offset len = nullFillWindowCols cs offset len := by
  cases cs with
  | nil => rfl
  | cons c cs0 =>
    rw [show RVec.rawFreeList (c :: cs0) = (RVec.rawFree c && RVec.rawFreeList cs0) from rfl,
      Bool.and_eq_true] at h
    simp only [fillColsWithNulls, nullFillWindowCols,
      fill_vec_with_nulls_eq_nullFillWindow c offset len h.1]
    cases hc : nullFillWindow c offset len with
    | mk e c' =>
      cases e with
      | some e0 => rfl
      | none => rw [fillColsWithNulls_eq_nullFillWindowCols cs0 offset len h.2]

end

/-- One row of the union conversion, written from the spec (§4.4 Union):
with the row status still successful, resolve `(child_index,
child_offset)` from the union's type/offset buffers at the parent's
source position, rebind that child to source slice `(child_offset, 1)`
and destination slice `(parent_dst_offset + i, 1)`, recursively
materialize the single element into the child's column, and keep any
nonzero status (absorbing all later rows). -/
def unionSpecStep (recur : RConverter → RVec → Except RError (Int × RVec))
    (conv : RConverter) (acc : Int × List RVec) (i : Int) :
    Except RError (Int × List RVec) :=
  if acc.1 ≠ NANOARROW_OK then pure acc
  else
    let pos := conv.info.srcOffset + i
    let ci := conv.info.arrayView.unionChildIndex pos
    let co := conv.info.arrayView.unionChildOffset pos
    let child := (conv.children.getD ci default).setSlices co 1 (conv.info.dstOffset + i) 1
    do
      let (r, col') ← recur child (acc.2.getD ci RVec.nil)
      pure (r, acc.2.set ci col')

/-- The union materializer as the spec states it: first null-fill the
whole destination window `[dst.offset, dst.offset + L)` position by
position (`nullFillWindow`), then process every row `i` of `[0, L)` —
`L` being the destination slice length, independent of how rows
interleave variants — through `unionSpecStep`. -/
def nanoarrow_materialize_union_spec (recur : RConverter → RVec → Except RError (Int × RVec))
    (conv : RConverter) (dst : RVec) : Except RError (Int × RVec) :=
  match nullFillWindow dst conv.info.dstOffset conv.info.dstLength with
  | (some e, _) => Except.error e
  | (none, dst1) => do
    let (r, cols') ← (intRange conv.info.dstLength).foldlM (unionSpecStep recur conv)
      (NANOARROW_OK, dst1.cols)
    pure (r, dst1.withCols cols')

/-- A nonzero status absorbs the remaining rows of the spec-side fold. -/
theorem unionSpecStep_absorb (recur : RConverter → RVec → Except RError (Int × RVec))
    (conv : RConverter) (r : Int) (hr : r ≠ NANOARROW_OK) :
    ∀ (rows : List Int) (cls : List RVec),
      rows.foldlM (unionSpecStep recur conv) (r, cls) = pure (r, cls) := by
  intro rows
  induction rows with
  | nil => intro cls; rfl
  | cons i is ih =>
    intro cls
    rw [List.foldlM_cons]
    show Bind.bind (unionSpecStep recur conv (r, cls) i) _ = _
    rw [show unionSpecStep recur conv (r, cls) i = pure (r, cls) from if_pos hr]
    show List.foldlM (unionSpecStep recur conv) (r, cls) is = _
    exact ih cls

/-- The transcription of the C row loop coincides with the spec-side fold
over the same rows. -/
theorem unionRowsGo_eq_foldlM (recur : RConverter → RVec → Except RError (Int × RVec))
    (conv : RConverter) :
    ∀ (rows : List Int) (cls : List RVec),
      unionRowsGo recur conv rows cls =
        rows.foldlM (unionSpecStep recur conv) (NANOARROW_OK, cls) := by
  intro rows
  induction rows with
  | nil => intro cls; rfl
  | cons i is ih =>
    intro cls
    rw [List.foldlM_cons]
    simp only [unionRowsGo, unionSpecStep, ne_eq, not_true_eq_false, if_false]
    cases hres : recur ((conv.children.getD
        (conv.info.arrayView.unionChildIndex (conv.info.srcOffset + i)) default).setSlices
        (conv.info.arrayView.unionChildOffset (conv.info.srcOffset + i)) 1
        (conv.info.dstOffset + i) 1)
        (cls.getD (conv.info.arrayView.unionChildIndex (conv.info.srcOffset + i)) RVec.nil) with
    | error e => rfl
    | ok p =>
      obtain ⟨r, col'⟩ := p
      simp only [Bind.bind, Except.bind, pure, Except.pure]
      by_cases hr : r ≠ NANOARROW_OK
      · rw [if_pos hr, unionSpecStep_absorb recur conv r hr]
        rfl
      · rw [if_neg hr, ih]
        simp only [ne_eq, not_not] at hr
        rw [hr]

/-- A one-row dense union converter with a record target shape whose
destination window starts at offset 1 — the second chunk of a chunked
conversion. -/
def convUnionRaw : RConverter :=
  .node { vectorType := .dataFrame,
          arrayView := { storageType := .denseUnion },
          srcOffset := 0, srcLength := 1, dstOffset := 1, dstLength := 1 }
    [.node { vectorType := .other } []]

/-- Counterexample to C2 as stated: materializing a one-row dense union
into a record destination with a raw column at window offset 1 does not
null-fill the destination window — the raw column comes out `[0, 7]`:
position 0, outside the window, was zeroed, while window position 1
keeps its old byte `7`.  The claim's pre-fill ("null-fills the whole
destination window") would demand `[7, 0]`.  (The child materializer is
the identity here, so the row loop leaves the fill's result visible.) -/
theorem c2_union_raw_prefill_counterexample :
    nanoarrow_materialize_data_frame (fun _ v => pure (NANOARROW_OK, v)) convUnionRaw
        (.vec { classes := ["data.frame"], names := some ["x"] } [.raw {} [7, 7]]) =
      .ok (NANOARROW_OK,
        .vec { classes := ["data.frame"], names := some ["x"] } [.raw {} [0, 7]]) ∧
    ([0, 7] : List Nat) ≠ [7, 0] :=
  ⟨rfl, by decide⟩

/-- C2 (amended): on a dense or sparse union source with a record target
shape, no dictionary, and a destination without raw columns, the union
materializer is exactly the spec's algorithm: null-fill the whole
destination window position by position, then for every row `i` in
`[0, L)` resolve `(child_index, child_offset)` from the union buffers,
rebind that child to source slice `(child_offset, 1)` and destination
slice `(dst.offset + i, 1)`, and recursively materialize that single
element; the rows processed are `[0, L)` for `L` the destination slice
length, however the rows interleave variants.  (For a raw column the
code's pre-fill zeroes `[0, len)` instead of the window — the defect
recorded under C8 — hence the raw-free restriction.) -/
theorem c2_union_materializer_refines_spec
    (recur : RConverter → RVec → Except RError (Int × RVec)) (conv : RConverter) (dst : RVec)
    (hv : conv.info.vectorType = VectorType.dataFrame)
    (hdict : conv.info.arrayView.dictionary = false)
    (hst : conv.info.arrayView.storageType = StorageType.denseUnion ∨
      conv.info.arrayView.storageType = StorageType.sparseUnion)
    (hraw : dst.rawFree = true) :
    nanoarrow_materialize_data_frame recur conv dst =
      nanoarrow_materialize_union_spec recur conv dst := by
  unfold nanoarrow_materialize_data_frame nanoarrow_materialize_union_spec
  rw [if_neg (by simp [hv]), if_neg (by simp [hdict]),
    ← fill_vec_with_nulls_eq_nullFillWindow dst conv.info.dstOffset conv.info.dstLength hraw]
  cases hst with
  | inl h =>
    rw [h]
    cases fill_vec_with_nulls dst conv.info.dstOffset conv.info.dstLength with
    | mk e dst1 =>
      cases e with
      | some e0 => rfl
      | none => simp only; rw [unionRowsGo_eq_foldlM]
  | inr h =>
    rw [h]
    cases fill_vec_with_nulls dst conv.info.dstOffset conv.info.dstLength with
    | mk e dst1 =>
      cases e with
      | some e0 => rfl
      | none => simp only; rw [unionRowsGo_eq_foldlM]

/-- A two-variant dense union converter with two children (`int` and
`chr` targets), three rows, type buffer `[0, 1, 0]` and offset buffer
`[0, 0, 1]`, over a record destination of two columns. -/
def convUnion : RConverter :=
  .node { vectorType := .dataFrame,
          arrayView := { storageType := .denseUnion,
                         unionChildIndex := fun i => [0, 1, 0].getD i.toNat 0,
                         unionChildOffset := fun i => [0, 0, 1].getD i.toNat 0 },
          srcLength := 3, dstLength := 3 }
    [.node { vectorType := .int, srcLength := 1, dstLength := 1 } [],
     .node { vectorType := .chr, srcLength := 1, dstLength := 1 } []]

/-- Witness for the amended C2 at the spec's own example: dense union with
types `[0,1,0]` and offsets `[0,0,1]` over two children and a raw-free
record destination. -/
theorem c2_union_materializer_refines_spec_witness :
    nanoarrow_materialize_data_frame (fun _ v => pure (NANOARROW_OK, v)) convUnion
        (.vec { classes := ["data.frame"], names := some ["a", "b"] }
          [.int {} [some 1, some 2, some 3], .chr {} [some "x", some "y", some "z"]]) =
      nanoarrow_materialize_union_spec (fun _ v => pure (NANOARROW_OK, v)) convUnion
        (.vec { classes := ["data.frame"], names := some ["a", "b"] }
          [.int {} [some 1, some 2, some 3], .chr {} [some "x", some "y", some "z"]]) :=
  c2_union_materializer_refines_spec (fun _ v => pure (NANOARROW_OK, v)) convUnion
    (.vec { classes := ["data.frame"], names := some ["a", "b"] }
      [.int {} [some 1, some 2, some 3], .chr {} [some "x", some "y", some "z"]])
    rfl rfl (Or.inl rfl) rfl

/-! ### C3 — the list-of materializer against its specification -/

/-- The element sub-range resolution of the list conversion, written from
the spec (§4.4 List-of): for `LIST`, `offset = offsets32[k]` and
`length = offsets32[k+1] - offsets32[k]`; for `LARGE_LIST` the same with
the 64-bit offsets; for `FIXED_SIZE_LIST`, `length = fixed stride` and
`offset = (base + i) * stride`, where `k = base + i` and `base` is the
raw source offset (array offset plus slice offset). -/
def listResolveSpec (av : ArrayView) (base i : Int) : Int × Int :=
  match av.storageType with
  | .list => (av.offsets32 (base + i), av.offsets32 (base + i + 1) - av.offsets32 (base + i))
  | .largeList =>
    (av.offsets64 (base + i), av.offsets64 (base + i + 1) - av.offsets64 (base + i))
  | .fixedSizeList => ((base + i) * av.childSizeElements, av.childSizeElements)
  | _ => (0, 0)

/-- One destination row of the list conversion, written from the spec
(§4.4 List-of): with the row status still successful, a null source row
is left at its default — no child value is built; otherwise the resolved
sub-range is materialized through the child subtree into a fresh child
container, which is stored at destination row `dst.offset + i`; a
nonzero status absorbs all later rows. -/
def listSpecStep (σ : Oracle) (av : ArrayView) (srcOff dstOff : Int)
    (resolve : Int → Int × Int) (acc : Int × RConverter × RVec) (i : Int) :
    Except RError (Int × RConverter × RVec) :=
  if acc.1 ≠ NANOARROW_OK then pure acc
  else if av.isNull (srcOff + i) then pure acc
  else do
    let (r, child') ← materialize_list_element σ acc.2.1 (resolve i).1 (resolve i).2
    if r ≠ NANOARROW_OK then pure (r, child', acc.2.2)
    else pure (NANOARROW_OK, child', acc.2.2.setElt (dstOff + i) (σ.releaseResult child'))

/-- Run the spec-side row fold and project the status and destination. -/
def listSpecRun (σ : Oracle) (av : ArrayView) (srcOff dstOff : Int)
    (resolve : Int → Int × Int) (rows : List Int) (acc : Int × RConverter × RVec) :
    Except RError (Int × RVec) := do
  let a ← rows.foldlM (listSpecStep σ av srcOff dstOff resolve) acc
  pure (a.1, a.2.2)

/-- The list-of materializer as the spec states it, for the three
recognized list storage kinds: every destination row of `[0, L)` is
processed through `listSpecStep` with the storage kind's sub-range
resolution. -/
def nanoarrow_materialize_list_of_spec (σ : Oracle) (conv : RConverter) (dst : RVec) :
    Except RError (Int × RVec) :=
  listSpecRun σ conv.info.arrayView conv.info.srcOffset conv.info.dstOffset
    (listResolveSpec conv.info.arrayView (conv.info.arrayView.arrayOffset + conv.info.srcOffset))
    (intRange conv.info.dstLength)
    (NANOARROW_OK, conv.children.getD 0 default, dst)

/-- A nonzero status absorbs the remaining rows of the list fold. -/
theorem listSpecStep_absorb (σ : Oracle) (av : ArrayView) (srcOff dstOff : Int)
    (resolve : Int → Int × Int) (r : Int) (hr : r ≠ NANOARROW_OK) :
    ∀ (rows : List Int) (child : RConverter) (dst : RVec),
      rows.foldlM (listSpecStep σ av srcOff dstOff resolve) (r, child, dst) =
        pure (r, child, dst) := by
  intro rows
  induction rows with
  | nil => intro child dst; rfl
  | cons i is ih =>
    intro child dst
    rw [List.foldlM_cons]
    rw [show listSpecStep σ av srcOff dstOff resolve (r, child, dst) i = pure (r, child, dst)
      from if_pos hr]
    show List.foldlM (listSpecStep σ av srcOff dstOff resolve) (r, child, dst) is = _
    exact ih child dst

/-- The transcription of the C row loop coincides with the spec-side fold
over the same rows, for any sub-range resolution. -/
theorem listRowsGo_eq_listSpecRun (σ : Oracle) (av : ArrayView) (srcOff dstOff : Int)
    (resolve : Int → Int × Int) :
    ∀ (rows : List Int) (child : RConverter) (dst : RVec),
      listRowsGo σ av srcOff dstOff resolve rows child dst =
        listSpecRun σ av srcOff dstOff resolve rows (NANOARROW_OK, child, dst) := by
  intro rows
  induction rows with
  | nil => intro child dst; rfl
  | cons i is ih =>
    intro child dst
    unfold listSpecRun
    rw [List.foldlM_cons]
    by_cases hnull : av.isNull (srcOff + i)
    · rw [show listSpecStep σ av srcOff dstOff resolve (NANOARROW_OK, child, dst) i =
          pure (NANOARROW_OK, child, dst) from by
        unfold listSpecStep
        rw [if_neg (by simp), if_pos hnull]]
      rw [pure_bind]
      show listRowsGo σ av srcOff dstOff resolve (i :: is) child dst =
        listSpecRun σ av srcOff dstOff resolve is (NANOARROW_OK, child, dst)
      rw [← ih child dst]
      simp only [listRowsGo, if_pos hnull]
    · rw [show listSpecStep σ av srcOff dstOff resolve (NANOARROW_OK, child, dst) i =
          do
            let (r, child') ← materialize_list_element σ child (resolve i).1 (resolve i).2
            if r ≠ NANOARROW_OK then pure (r, child', dst)
            else pure (NANOARROW_OK, child', dst.setElt (dstOff + i) (σ.releaseResult child'))
        from by
        unfold listSpecStep
        rw [if_neg (by simp), if_neg hnull]]
      simp only [listRowsGo, if_neg hnull]
      cases hm : materialize_list_element σ child (resolve i).1 (resolve i).2 with
      | error e =>
        simp only [Bind.bind, Except.bind, hm]
      | ok p =>
        obtain ⟨r, child'⟩ := p
        simp only [Bind.bind, Except.bind, hm]
        by_cases hr : r ≠ NANOARROW_OK
        · rw [if_pos hr, if_pos hr]
          show pure (r, dst) = Except.bind (List.foldlM _ (r, child', dst) is) _
          rw [show List.foldlM (listSpecStep σ av srcOff dstOff resolve) (r, child', dst) is =
            pure (r, child', dst) from listSpecStep_absorb σ av srcOff dstOff resolve r hr
              is child' dst]
          rfl
        · rw [if_neg hr, if_neg hr]
          simp only [ne_eq, not_not] at hr
          subst hr
          show listRowsGo σ av srcOff dstOff resolve is child'
              (dst.setElt (dstOff + i) (σ.releaseResult child')) =
            Except.bind (pure (NANOARROW_OK, child',
              dst.setElt (dstOff + i) (σ.releaseResult child')) : Except RError _)
              (fun b => List.foldlM (listSpecStep σ av srcOff dstOff resolve) b is >>=
                fun a => pure (a.1, a.2.2))
          rw [ih]
          rfl

/-- C3: on `LIST`, `LARGE_LIST` and `FIXED_SIZE_LIST` storage without a
dictionary, the list-of materializer is exactly the spec's algorithm: for
each destination row, a null source row keeps its default and builds no
child value, and a non-null row materializes the sub-range resolved as
`offset = offsets32[k]`, `length = offsets32[k+1] - offsets32[k]` (64-bit
for `LARGE_LIST`; `length = stride`, `offset = (base + i) * stride` for
`FIXED_SIZE_LIST`) through the child subtree into a fresh container
stored at that row. -/
theorem c3_list_of_materializer_refines_spec (σ : Oracle) (conv : RConverter) (dst : RVec)
    (hdict : conv.info.arrayView.dictionary = false)
    (hst : conv.info.arrayView.storageType = StorageType.list ∨
      conv.info.arrayView.storageType = StorageType.largeList ∨
      conv.info.arrayView.storageType = StorageType.fixedSizeList) :
    nanoarrow_materialize_list_of σ conv dst =
      nanoarrow_materialize_list_of_spec σ conv dst := by
  unfold nanoarrow_materialize_list_of nanoarrow_materialize_list_of_spec
  rw [if_neg (by simp [hdict])]
  have hresolve32 : conv.info.arrayView.storageType = StorageType.list →
      listResolveSpec conv.info.arrayView
          (conv.info.arrayView.arrayOffset + conv.info.srcOffset) = fun i =>
        (conv.info.arrayView.offsets32 (conv.info.arrayView.arrayOffset +
            conv.info.srcOffset + i),
          conv.info.arrayView.offsets32 (conv.info.arrayView.arrayOffset +
            conv.info.srcOffset + i + 1) -
            conv.info.arrayView.offsets32 (conv.info.arrayView.arrayOffset +
              conv.info.srcOffset + i)) := by
    intro h
    funext i
    unfold listResolveSpec
    rw [h]
  have hresolve64 : conv.info.arrayView.storageType = StorageType.largeList →
      listResolveSpec conv.info.arrayView
          (conv.info.arrayView.arrayOffset + conv.info.srcOffset) = fun i =>
        (conv.info.arrayView.offsets64 (conv.info.arrayView.arrayOffset +
            conv.info.srcOffset + i),
          conv.info.arrayView.offsets64 (conv.info.arrayView.arrayOffset +
            conv.info.srcOffset + i + 1) -
            conv.info.arrayView.offsets64 (conv.info.arrayView.arrayOffset +
              conv.info.srcOffset + i)) := by
    intro h
    funext i
    unfold listResolveSpec
    rw [h]
  have hresolvefx : conv.info.arrayView.storageType = StorageType.fixedSizeList →
      listResolveSpec conv.info.arrayView
          (conv.info.arrayView.arrayOffset + conv.info.srcOffset) = fun i =>
        ((conv.info.arrayView.arrayOffset + conv.info.srcOffset + i) *
            conv.info.arrayView.childSizeElements,
          conv.info.arrayView.childSizeElements) := by
    intro h
    funext i
    unfold listResolveSpec
    rw [h]
  rcases hst with h | h | h
  · rw [h, hresolve32 h]
    dsimp only
    rw [listRowsGo_eq_listSpecRun]
  · rw [h, hresolve64 h]
    dsimp only
    rw [listRowsGo_eq_listSpecRun]
  · rw [h, hresolvefx h]
    dsimp only
    rw [listRowsGo_eq_listSpecRun]

/-- A `LIST` converter over the spec's example offsets `[0, 2, 2, 5]`
(three rows of lengths 2, 0, 3) with an `int` child target and a
three-slot generic-list destination. -/
def convList025 : RConverter :=
  .node { vectorType := .listOf,
          arrayView := { storageType := .list,
                         offsets32 := fun i => [0, 2, 2, 5].getD i.toNat 0 },
          srcLength := 3, dstLength := 3 }
    [.node { vectorType := .int } []]

/-- Witness for C3 at the spec's own example: a `LIST` array with offsets
`[0,2,2,5]` and no nulls. -/
theorem c3_list_of_materializer_refines_spec_witness :
    nanoarrow_materialize_list_of oracle0 convList025 (.vec {} [.nil, .nil, .nil]) =
      nanoarrow_materialize_list_of_spec oracle0 convList025 (.vec {} [.nil, .nil, .nil]) :=
  c3_list_of_materializer_refines_spec oracle0 convList025 (.vec {} [.nil, .nil, .nil])
    rfl (Or.inl rfl)

end Nanoarrow
